import Mathlib

/-!
Shallow embedding of the drop_bomb crate (src/src/lib.rs).

The crate exposes two guard types:
* `DropBomb`, a newtype over the private `RealBomb` (a message plus a
  `defused` flag) whose `Drop` impl panics with the stored message when the
  flag is still false and the current thread is not already panicking;
* `DebugDropBomb`, a newtype over `DebugBomb`, a type alias selected by the
  `debug_assertions` cfg flag: `RealBomb` in debug builds, the empty struct
  `FakeBomb` in release builds.

Modelling conventions:
* `Cow<'static, str>` becomes `String`.
* The `Drop` impl becomes an explicit function `dropCheck` taking the value
  of `std::thread::panicking()` as a `Bool` argument and returning
  `Option String`: `some m` means a panic with message `m` is raised
  (`panic!("{}", self.msg)` formats to exactly the stored message),
  `none` means the drop is silent.
* The cfg flag becomes a `Bool` argument to `DebugDropBomb.new`, the one
  place where the source's `#[cfg(debug_assertions)]` selection of
  `DebugBomb` takes effect; after construction the state itself records
  which variant it is.  `DropBomb`'s definitions never take the flag,
  mirroring the absence of any cfg attribute on them in the source.
-/

/-- The private `RealBomb` struct: a diagnostic message and a defused flag. -/
structure RealBomb where
  msg : String
  defused : Bool
deriving DecidableEq, Repr

/-- `RealBomb::new`: stores the message, flag starts false. -/
def RealBomb.new (msg : String) : RealBomb :=
  { msg := msg, defused := false }

/-- `RealBomb::set_defused`: writes the flag. -/
def RealBomb.set_defused (b : RealBomb) (defused : Bool) : RealBomb :=
  { b with defused := defused }

/-- `DropBomb::defuse` lowered onto the inner bomb: `set_defused(true)`. -/
def RealBomb.defuse (b : RealBomb) : RealBomb :=
  b.set_defused true

/-- `RealBomb::is_defused`: reads the flag (takes `&self`, mutates nothing). -/
def RealBomb.is_defused (b : RealBomb) : Bool :=
  b.defused

/-- `impl Drop for RealBomb`: `if !self.defused && !thread::panicking()
\x7b panic!("\x7b\x7d", self.msg) \x7d`. -/
def RealBomb.dropCheck (b : RealBomb) (panicking : Bool) : Option String :=
  if !b.defused && !panicking then some b.msg else none

/-- The public `DropBomb` newtype over `RealBomb`. -/
structure DropBomb where
  inner : RealBomb
deriving DecidableEq, Repr

/-- `DropBomb::new`. -/
def DropBomb.new (msg : String) : DropBomb :=
  ⟨RealBomb.new msg⟩

/-- `DropBomb::set_defused`: delegates to the inner bomb. -/
def DropBomb.set_defused (b : DropBomb) (defused : Bool) : DropBomb :=
  ⟨b.inner.set_defused defused⟩

/-- `DropBomb::defuse`: `self.set_defused(true)`. -/
def DropBomb.defuse (b : DropBomb) : DropBomb :=
  b.set_defused true

/-- `DropBomb::is_defused`: delegates to the inner bomb. -/
def DropBomb.is_defused (b : DropBomb) : Bool :=
  b.inner.is_defused

/-- Dropping a `DropBomb` runs the inner `RealBomb` drop check. -/
def DropBomb.dropCheck (b : DropBomb) (panicking : Bool) : Option String :=
  b.inner.dropCheck panicking

/-- The release-build `FakeBomb`: an empty struct, no fields at all. -/
structure FakeBomb where
deriving DecidableEq, Repr

/-- `FakeBomb::new`: discards the message. -/
def FakeBomb.new (_msg : String) : FakeBomb :=
  {}

/-- `FakeBomb::set_defused`: a no-op. -/
def FakeBomb.set_defused (f : FakeBomb) (_defused : Bool) : FakeBomb :=
  f

/-- `FakeBomb::is_defused`: always true. -/
def FakeBomb.is_defused (_f : FakeBomb) : Bool :=
  true

/-- `impl Drop for FakeBomb`: does nothing, never panics. -/
def FakeBomb.dropCheck (_f : FakeBomb) (_panicking : Bool) : Option String :=
  none

/-- The `DebugBomb` alias resolved at build time: either variant's state. -/
inductive DebugBombState where
  | real (b : RealBomb)
  | fake (f : FakeBomb)
deriving DecidableEq, Repr

/-- The public `DebugDropBomb` newtype over `DebugBomb`. -/
structure DebugDropBomb where
  inner : DebugBombState
deriving DecidableEq, Repr

/-- `DebugDropBomb::new`, with the `debug_assertions` cfg flag made explicit:
in a debug build `DebugBomb = RealBomb`, in a release build
`DebugBomb = FakeBomb`. -/
def DebugDropBomb.new (debug : Bool) (msg : String) : DebugDropBomb :=
  if debug then ⟨.real (RealBomb.new msg)⟩ else ⟨.fake (FakeBomb.new msg)⟩

/-- `DebugDropBomb::set_defused`: delegates to the selected variant. -/
def DebugDropBomb.set_defused (d : DebugDropBomb) (defused : Bool) : DebugDropBomb :=
  match d.inner with
  | .real b => ⟨.real (b.set_defused defused)⟩
  | .fake f => ⟨.fake (f.set_defused defused)⟩

/-- `DebugDropBomb::defuse`: `self.set_defused(true)`. -/
def DebugDropBomb.defuse (d : DebugDropBomb) : DebugDropBomb :=
  d.set_defused true

/-- `DebugDropBomb::is_defused`: delegates to the selected variant. -/
def DebugDropBomb.is_defused (d : DebugDropBomb) : Bool :=
  match d.inner with
  | .real b => b.is_defused
  | .fake f => f.is_defused

/-- Dropping a `DebugDropBomb` runs the selected variant's drop behaviour. -/
def DebugDropBomb.dropCheck (d : DebugDropBomb) (panicking : Bool) : Option String :=
  match d.inner with
  | .real b => b.dropCheck panicking
  | .fake f => f.dropCheck panicking

/-- A mutating call of the public API (between construction and drop). -/
inductive Op where
  | defuse
  | setDefused (v : Bool)
deriving DecidableEq, Repr

/-- Apply one call to a `DropBomb`. -/
def Op.applyDrop (op : Op) (b : DropBomb) : DropBomb :=
  match op with
  | .defuse => b.defuse
  | .setDefused v => b.set_defused v

/-- Apply one call to a `DebugDropBomb`. -/
def Op.applyDebug (op : Op) (d : DebugDropBomb) : DebugDropBomb :=
  match op with
  | .defuse => d.defuse
  | .setDefused v => d.set_defused v

/-- Run a call sequence on a `DropBomb`. -/
def runDrop (ops : List Op) (b : DropBomb) : DropBomb :=
  ops.foldl (fun b op => op.applyDrop b) b

/-- Run a call sequence on a `DebugDropBomb`. -/
def runDebug (ops : List Op) (d : DebugDropBomb) : DebugDropBomb :=
  ops.foldl (fun d op => op.applyDebug d) d

/-! Helper lemmas shared by the claim theorems. -/

/-- One API call on a release-build `DebugDropBomb` leaves it unchanged. -/
theorem applyDebug_fake (op : Op) (f : FakeBomb) :
    op.applyDebug ⟨.fake f⟩ = ⟨.fake f⟩ := by
  cases op <;> rfl

/-- Any call sequence on a release-build `DebugDropBomb` leaves it unchanged. -/
theorem runDebug_fake (ops : List Op) (f : FakeBomb) :
    runDebug ops ⟨.fake f⟩ = ⟨.fake f⟩ := by
  induction ops with
  | nil => rfl
  | cons op ops ih =>
    have h : runDebug (op :: ops) ⟨.fake f⟩ = runDebug ops (op.applyDebug ⟨.fake f⟩) := rfl
    rw [h, applyDebug_fake]
    exact ih

/-- One API call on a debug-build `DebugDropBomb` mirrors the same call on a
`DropBomb` with the same inner `RealBomb`. -/
theorem applyDebug_real (op : Op) (r : RealBomb) :
    op.applyDebug ⟨.real r⟩ = ⟨.real (op.applyDrop ⟨r⟩).inner⟩ := by
  cases op <;> rfl

/-- Any call sequence on a debug-build `DebugDropBomb` mirrors the same
sequence on a `DropBomb` with the same inner `RealBomb`. -/
theorem runDebug_real (ops : List Op) (r : RealBomb) :
    runDebug ops ⟨.real r⟩ = ⟨.real (runDrop ops ⟨r⟩).inner⟩ := by
  induction ops generalizing r with
  | nil => rfl
  | cons op ops ih =>
    have h : runDebug (op :: ops) ⟨.real r⟩ = runDebug ops (op.applyDebug ⟨.real r⟩) := rfl
    rw [h, applyDebug_real, ih]
    rfl

/-- Defusing sets the inner flag to true, whatever the previous state. -/
theorem defuse_is_defused (b : DropBomb) : b.defuse.is_defused = true := rfl

/-- Iterated defusing (at least once) leaves the flag true. -/
theorem iterate_defuse_is_defused (b : DropBomb) (n : Nat) (h : 1 ≤ n) :
    (DropBomb.defuse^[n] b).is_defused = true := by
  obtain ⟨m, rfl⟩ : ∃ m, n = m + 1 := ⟨n - 1, (Nat.succ_pred_eq_of_pos h).symm⟩
  rw [Function.iterate_succ_apply']
  exact defuse_is_defused _

/-- The drop check is a function of the flag, the message and the panicking
state only. -/
theorem dropCheck_eq (b : DropBomb) (p : Bool) :
    b.dropCheck p = if !b.is_defused && !p then some b.inner.msg else none := rfl

/-! Claim theorems. -/

/-- Claim C1: for every message M, a `DropBomb` constructed with M, never
defused, and dropped while the thread is not already panicking, panics at
drop with diagnostic text exactly M. -/
theorem C1_armed_drop_panics_with_message (msg : String) :
    (DropBomb.new msg).dropCheck false = some msg := rfl

/-- Claim C2: for every message M, constructing a `DropBomb` with M, calling
`defuse` at least once, and then dropping it (whatever the panicking state)
raises no panic. -/
theorem C2_defused_drop_is_silent (msg : String) (n : Nat) (p : Bool)
    (h : 1 ≤ n) :
    (DropBomb.defuse^[n] (DropBomb.new msg)).dropCheck p = none := by
  rw [dropCheck_eq, iterate_defuse_is_defused _ n h]
  rfl

/-- Witness for C2 at msg "X", one defuse call, thread not panicking. -/
theorem C2_defused_drop_is_silent_witness :
    1 ≤ 1 ∧ (DropBomb.defuse^[1] (DropBomb.new "X")).dropCheck false = none :=
  ⟨by decide, C2_defused_drop_is_silent "X" 1 false (by decide)⟩

/-- Claim C3: dropping a still-armed `DropBomb` while the thread is already
panicking raises no secondary panic. -/
theorem C3_no_double_panic (b : DropBomb) (h : b.is_defused = false) :
    b.dropCheck true = none := by
  rw [dropCheck_eq]
  simp

/-- Witness for C3 at a freshly constructed (hence armed) bomb. -/
theorem C3_no_double_panic_witness :
    (DropBomb.new "Kaboom").is_defused = false ∧
    (DropBomb.new "Kaboom").dropCheck true = none :=
  ⟨rfl, C3_no_double_panic (DropBomb.new "Kaboom") rfl⟩

/-- Claim C4: for the full variant, `is_defused` is false right after
construction and true right after `defuse`, for every message. -/
theorem C4_is_defused_after_new_and_defuse (msg : String) :
    (DropBomb.new msg).is_defused = false ∧
    (DropBomb.new msg).defuse.is_defused = true :=
  ⟨rfl, rfl⟩

/-- Claim C5: `defuse` is idempotent — any positive number of `defuse` calls
leaves `is_defused` true — and `set_defused false` afterwards re-arms the
bomb (`is_defused` becomes false again). -/
theorem C5_defuse_idempotent_and_rearm (b : DropBomb) (n : Nat) (h : 1 ≤ n) :
    (DropBomb.defuse^[n] b).is_defused = true ∧
    ((DropBomb.defuse^[n] b).set_defused false).is_defused = false :=
  ⟨iterate_defuse_is_defused b n h, rfl⟩

/-- Witness for C5 at a fresh bomb and two defuse calls. -/
theorem C5_defuse_idempotent_and_rearm_witness :
    1 ≤ 2 ∧
    ((DropBomb.defuse^[2] (DropBomb.new "X")).is_defused = true ∧
     ((DropBomb.defuse^[2] (DropBomb.new "X")).set_defused false).is_defused
       = false) :=
  ⟨by decide, C5_defuse_idempotent_and_rearm (DropBomb.new "X") 2 (by decide)⟩

/-- Claim C6: a bomb that was defused and then re-armed via
`set_defused false` drops exactly like a never-defused bomb: with the thread
not panicking it panics with its message M, and for every panicking state the
drop outcome coincides with that of a fresh bomb; the drop check reads only
the flag (and message) as they stand at destruction time. -/
theorem C6_rearm_restores_drop_panic (msg : String) (p : Bool) :
    (((DropBomb.new msg).defuse.set_defused false).dropCheck false
        = some msg) ∧
    (((DropBomb.new msg).defuse.set_defused false).dropCheck p
        = (DropBomb.new msg).dropCheck p) ∧
    ∀ b : DropBomb,
      b.dropCheck p = if !b.is_defused && !p then some b.inner.msg else none :=
  ⟨rfl, rfl, fun b => dropCheck_eq b p⟩

/-- Claim C7: in the release configuration, `DebugDropBomb.is_defused`
returns true after any call sequence, its drop never panics, and the
underlying `FakeBomb` state carries no information (all its values are
equal — the zero-size correlate). -/
theorem C7_release_variant_inert (msg : String) (ops : List Op) (p : Bool) :
    (runDebug ops (DebugDropBomb.new false msg)).is_defused = true ∧
    (runDebug ops (DebugDropBomb.new false msg)).dropCheck p = none ∧
    ∀ a b : FakeBomb, a = b := by
  have h : DebugDropBomb.new false msg = ⟨.fake (FakeBomb.new msg)⟩ := rfl
  rw [h, runDebug_fake]
  exact ⟨rfl, rfl, fun a b => by cases a; cases b; rfl⟩

/-- Claim C8: in the debug configuration, `DebugDropBomb` behaves exactly
like `DropBomb` on the same message and call sequence: `is_defused` agrees
after every call sequence and the drop outcome agrees for every panicking
state. -/
theorem C8_debug_variant_refines_dropbomb (msg : String) (ops : List Op)
    (p : Bool) :
    ((runDebug ops (DebugDropBomb.new true msg)).is_defused
        = (runDrop ops (DropBomb.new msg)).is_defused) ∧
    ((runDebug ops (DebugDropBomb.new true msg)).dropCheck p
        = (runDrop ops (DropBomb.new msg)).dropCheck p) := by
  have h : DebugDropBomb.new true msg = ⟨.real (RealBomb.new msg)⟩ := rfl
  rw [h, runDebug_real]
  exact ⟨rfl, rfl⟩

/-- Claim C9: `set_defused` and `defuse` never touch the stored message, and
`is_defused` is a pure read of the flag (in the source it takes `&self`, so
it cannot mutate; here it returns only the flag value). -/
theorem C9_message_immutable_query_pure (b : RealBomb) (v : Bool) :
    (b.set_defused v).msg = b.msg ∧
    b.defuse.msg = b.msg ∧
    b.is_defused = b.defused :=
  ⟨rfl, rfl, rfl⟩

/-- Claim C10: `DropBomb` is built over `RealBomb` with no cfg selection, so
an armed `DropBomb` panics at drop under either build configuration, while
`DebugDropBomb` is inert exactly when the debug flag is off. -/
theorem C10_dropbomb_config_independent (debug : Bool) (msg : String) :
    ((DropBomb.new msg).dropCheck false = some msg) ∧
    ((DebugDropBomb.new debug msg).dropCheck false
        = if debug then some msg else none) := by
  cases debug <;> exact ⟨rfl, rfl⟩
